import Mathlib

/-!
Verification of the trio thread-cache core (`trio/_core/_thread_cache.py`),
the generated kqueue I/O entry points (`trio/_core/_generated_io_kqueue.py`),
and the `Sequencer` test utility (`trio/testing/_sequencer.py`),
via a shallow embedding of the Python source into Lean.

Modelling choices, stated once:
* A Python exception object is a `PyExc` (type name, message, traceback text).
* `outcome.Outcome` is the tagged union `Outcome`.
* The idle-worker registry `ThreadCache._idle_workers` is a Python 3.7+
  insertion-ordered `dict` whose values are all `None`; it is embedded as the
  list of its keys in insertion order.  `__setitem__` on a fresh key appends;
  on an existing key it keeps the key's position (values are all `None`, so
  the key list is unchanged).  `popitem` removes and returns the
  most-recently-inserted key; on an empty dict it raises `KeyError`, embedded
  as `none`.  `__delitem__` removes the key or raises `KeyError` (`none`).
* Workers are identified by the number drawn from the global `name_counter`.
* Straight-line thread code is embedded as a function from the state it reads
  to the state it writes, together with the ordered list of the observable
  events it performs (work execution, registry insertion, `deliver` call,
  stderr writes), so that ordering claims can be stated about the trace.
-/

namespace Trio

/-- Identity of a `WorkerThread` (the number drawn from `name_counter`). -/
abbrev WorkerId := Nat

/-- A Python exception object: its type name, message, and traceback text. -/
structure PyExc where
  ty : String
  msg : String
  tb : String
deriving DecidableEq, Repr

/-- `outcome.Outcome`: the tagged success/failure value produced by
`outcome.capture` and handed to `deliver`. -/
inductive Outcome (A : Type) where
  | value : A → Outcome A
  | error : PyExc → Outcome A
deriving DecidableEq, Repr

/-- `outcome.capture(fn)`: run `fn`, returning `Value` on normal return and
capturing a raised exception as an `Error`. -/
def capture {A : Type} (fn : Unit → Except PyExc A) : Outcome A :=
  match fn () with
  | Except.ok v => Outcome.value v
  | Except.error e => Outcome.error e

/-- What `traceback.print_exception(type(e), e, e.__traceback__)` writes:
the traceback followed by the exception type and message. -/
def formatException (e : PyExc) : String :=
  e.tb ++ e.ty ++ ": " ++ e.msg

/-- `d[k] = None` on an insertion-ordered dict with all-`None` values:
a fresh key is appended at the most-recent end; an existing key keeps its
position (only its value, always `None`, is overwritten). -/
def dictSetItem (d : List WorkerId) (k : WorkerId) : List WorkerId :=
  if k ∈ d then d else d ++ [k]

/-- `d.popitem()`: remove and return the most-recently-inserted key, or
`none` for the `KeyError` on an empty dict. -/
def dictPopItem (d : List WorkerId) : Option (WorkerId × List WorkerId) :=
  match d.getLast? with
  | none => none
  | some k => some (k, d.dropLast)

/-- `del d[k]`: remove the key, or `none` for the `KeyError` when absent. -/
def dictDelItem (d : List WorkerId) (k : WorkerId) : Option (List WorkerId) :=
  if k ∈ d then some (d.erase k) else none

/-- How long a thread idles waiting for new work before it gives up and
exits, in seconds (`IDLE_TIMEOUT` in `_thread_cache.py`). -/
def IDLE_TIMEOUT : Nat := 10

/-- A job as submitted to `start_thread_soon`: the blocking `fn` and the
`deliver` callback that receives its `Outcome`.  Either may raise. -/
structure Job (A : Type) where
  fn : Unit → Except PyExc A
  deliver : Outcome A → Except PyExc Unit

/-- The mutable state of one `WorkerThread` together with the flags its
constructor passes to the backing `threading.Thread`.  `workerLock = true`
means the `_worker_lock` is held (no pending job); `false` means a job has
been assigned and the lock released. -/
structure WorkerState (A : Type) where
  job : Option (Job A)
  workerLock : Bool
  threadDaemon : Bool
  threadName : String
  threadStarted : Bool

/-- `WorkerThread.__init__(thread_cache)` for the worker drawing number `n`
from `name_counter`: no job, `_worker_lock` acquired (locked), and the
backing thread created with `daemon=True`, named, and started. -/
def workerInit (A : Type) (n : Nat) : WorkerState A :=
  { job := none
    workerLock := true
    threadDaemon := true
    threadName := "Trio worker thread " ++ toString n
    threadStarted := true }

/-- Observable events of one pass of `WorkerThread._handle_job`, in the
order the thread performs them.  `deliverCall` records the contents of the
idle registry at the instant `deliver` is invoked. -/
inductive WorkerEvent (A : Type) where
  | workRun (r : Outcome A)
  | registryInsert (w : WorkerId)
  | deliverCall (r : Outcome A) (registryAtCall : List WorkerId)
  | deliverRaised (e : PyExc)
  | stderrWrite (line : String)

/-- What one pass of `WorkerThread._handle_job` leaves behind: the worker's
state, the idle registry, the lines printed to stderr, and the event trace. -/
structure HandleResult (A : Type) where
  worker : WorkerState A
  registry : List WorkerId
  stderr : List String
  events : List (WorkerEvent A)

/-- `WorkerThread._handle_job` for worker `self`: unpack `self._job` (the
protocol only calls this with a job assigned; unpacking `None` would raise,
embedded as `none`), clear the slot, run `outcome.capture(fn)`, re-insert
`self` into `self._thread_cache._idle_workers`, then call `deliver(result)`;
if `deliver` raises, print a message and the traceback to stderr instead of
propagating. -/
def _handle_job {A : Type} (self : WorkerId) (w : WorkerState A)
    (registry : List WorkerId) : Option (HandleResult A) :=
  match w.job with
  | none => none
  | some job =>
    let w1 : WorkerState A := { w with job := none }
    let result := capture job.fn
    let registry1 := dictSetItem registry self
    match job.deliver result with
    | Except.ok _ =>
        some { worker := w1
               registry := registry1
               stderr := []
               events := [WorkerEvent.workRun result,
                          WorkerEvent.registryInsert self,
                          WorkerEvent.deliverCall result registry1] }
    | Except.error e =>
        some { worker := w1
               registry := registry1
               stderr := ["Exception while delivering result of thread",
                          formatException e]
               events := [WorkerEvent.workRun result,
                          WorkerEvent.registryInsert self,
                          WorkerEvent.deliverCall result registry1,
                          WorkerEvent.deliverRaised e,
                          WorkerEvent.stderrWrite
                            "Exception while delivering result of thread",
                          WorkerEvent.stderrWrite (formatException e)] }

/-- Outcome of the timeout branch of `WorkerThread._work` (the `else` of
`self._worker_lock.acquire(timeout=IDLE_TIMEOUT)`): either the thread
returns from `_work` (terminates) or it loops around to wait for the job
being assigned to it.  Each constructor carries the resulting registry. -/
inductive TimeoutStep where
  | exitThread (registry : List WorkerId)
  | loopForJob (registry : List WorkerId)
deriving DecidableEq, Repr

/-- The timeout branch of `WorkerThread._work`: attempt
`del self._thread_cache._idle_workers[self]`; on success return from the
loop, on `KeyError` continue the loop and wait again. -/
def _work_timeout (self : WorkerId) (registry : List WorkerId) : TimeoutStep :=
  match dictDelItem registry self with
  | some d => TimeoutStep.exitThread d
  | none => TimeoutStep.loopForJob registry

/-- The state of the process-wide `ThreadCache` together with the states of
all workers it has created.  `nextId` is the value of the global
`name_counter`. -/
structure CacheState (A : Type) where
  idle_workers : List WorkerId
  workers : WorkerId → WorkerState A
  nextId : Nat

/-- Point update of the worker table. -/
def setWorker {A : Type} (ws : WorkerId → WorkerState A) (i : WorkerId)
    (v : WorkerState A) : WorkerId → WorkerState A :=
  fun j => if j = i then v else ws j

/-- Observable events of one `ThreadCache.start_thread_soon` call, in
program order. -/
inductive CacheEvent where
  | popItem (popped : Option WorkerId)
  | spawnWorker (w : WorkerId)
  | jobWrite (w : WorkerId)
  | lockRelease (w : WorkerId)
deriving DecidableEq, Repr

/-- What one `ThreadCache.start_thread_soon` call leaves behind: the new
cache state, the worker the job was handed to, and the event trace. -/
structure AssignResult (A : Type) where
  cache : CacheState A
  worker : WorkerId
  events : List CacheEvent

/-- `ThreadCache.start_thread_soon(fn, deliver)` (the module-level
`start_thread_soon` delegates here): `popitem` the idle registry; on
`KeyError` construct a fresh `WorkerThread` (whose constructor does not
touch the registry); then write `worker._job = (fn, deliver)` and release
`worker._worker_lock`. -/
def start_thread_soon {A : Type} (c : CacheState A) (fn : Unit → Except PyExc A)
    (deliver : Outcome A → Except PyExc Unit) : AssignResult A :=
  match dictPopItem c.idle_workers with
  | some (w, d) =>
      let c1 : CacheState A := { c with idle_workers := d }
      let w2 : WorkerState A := { c1.workers w with job := some ⟨fn, deliver⟩ }
      let c2 : CacheState A := { c1 with workers := setWorker c1.workers w w2 }
      let w3 : WorkerState A := { c2.workers w with workerLock := false }
      let c3 : CacheState A := { c2 with workers := setWorker c2.workers w w3 }
      { cache := c3
        worker := w
        events := [CacheEvent.popItem (some w), CacheEvent.jobWrite w,
                   CacheEvent.lockRelease w] }
  | none =>
      let w := c.nextId
      let c1 : CacheState A :=
        { c with nextId := c.nextId + 1,
                 workers := setWorker c.workers w (workerInit A w) }
      let w2 : WorkerState A := { c1.workers w with job := some ⟨fn, deliver⟩ }
      let c2 : CacheState A := { c1 with workers := setWorker c1.workers w w2 }
      let w3 : WorkerState A := { c2.workers w with workerLock := false }
      let c3 : CacheState A := { c2 with workers := setWorker c2.workers w w3 }
      { cache := c3
        worker := w
        events := [CacheEvent.popItem none, CacheEvent.spawnWorker w,
                   CacheEvent.jobWrite w, CacheEvent.lockRelease w] }

/-- The kqueue-backed `IOManager` of the runner, opaque to
`_generated_io_kqueue.py`: its methods are fields over an abstract object
type `α`, each of which may itself raise. -/
structure IoManager (α : Type) where
  current_kqueue : Unit → Except PyExc α
  monitor_kevent : α → α → Except PyExc α
  wait_kevent : α → α → α → Except PyExc α
  wait_readable : α → Except PyExc α
  wait_writable : α → Except PyExc α
  notify_closing : α → Except PyExc α

/-- The runner stored in the global run context while `trio.run` is
active. -/
structure Runner (α : Type) where
  io_manager : IoManager α

/-- `GLOBAL_RUN_CONTEXT`: a threading.local on which the `runner` attribute
is set only while a run is active; reading it otherwise raises
`AttributeError`. -/
structure RunContext (α : Type) where
  runner : Option (Runner α)

/-- The `AttributeError` raised by reading a missing attribute. -/
def attributeMissing (name : String) : PyExc :=
  { ty := "AttributeError", msg := name, tb := "" }

/-- `GLOBAL_RUN_CONTEXT.runner`: the attribute read, raising
`AttributeError` when no runner is installed. -/
def getRunner {α : Type} (ctx : RunContext α) : Except PyExc (Runner α) :=
  match ctx.runner with
  | some r => Except.ok r
  | none => Except.error (attributeMissing "runner")

/-- The `RuntimeError` each generated entry point raises when called outside
async context. -/
def mustBeCalledFromAsyncContext : PyExc :=
  { ty := "RuntimeError", msg := "must be called from async context", tb := "" }

/-- The `try: ... except AttributeError: raise RuntimeError("must be called
from async context")` wrapper shared by every function in
`_generated_io_kqueue.py`.  (The `locals()[LOCALS_KEY_KI_PROTECTION_ENABLED]
= True` marker carries no data flow and is not modelled.) -/
def guardAsyncContext {α : Type} (body : Except PyExc α) : Except PyExc α :=
  match body with
  | Except.ok v => Except.ok v
  | Except.error e =>
      if e.ty = "AttributeError" then Except.error mustBeCalledFromAsyncContext
      else Except.error e

/-- `current_kqueue()` from `_generated_io_kqueue.py`. -/
def io_current_kqueue {α : Type} (ctx : RunContext α) : Except PyExc α :=
  guardAsyncContext (do
    let r ← getRunner ctx
    r.io_manager.current_kqueue ())

/-- `monitor_kevent(ident, filter)` from `_generated_io_kqueue.py`. -/
def io_monitor_kevent {α : Type} (ctx : RunContext α) (ident fltr : α) :
    Except PyExc α :=
  guardAsyncContext (do
    let r ← getRunner ctx
    r.io_manager.monitor_kevent ident fltr)

/-- `wait_kevent(ident, filter, abort_func)` from
`_generated_io_kqueue.py` (`async`, embedded as its eventual result). -/
def io_wait_kevent {α : Type} (ctx : RunContext α) (ident fltr abort_func : α) :
    Except PyExc α :=
  guardAsyncContext (do
    let r ← getRunner ctx
    r.io_manager.wait_kevent ident fltr abort_func)

/-- `wait_readable(fd)` from `_generated_io_kqueue.py` (`async`, embedded
as its eventual result). -/
def io_wait_readable {α : Type} (ctx : RunContext α) (fd : α) : Except PyExc α :=
  guardAsyncContext (do
    let r ← getRunner ctx
    r.io_manager.wait_readable fd)

/-- `wait_writable(fd)` from `_generated_io_kqueue.py` (`async`, embedded
as its eventual result). -/
def io_wait_writable {α : Type} (ctx : RunContext α) (fd : α) : Except PyExc α :=
  guardAsyncContext (do
    let r ← getRunner ctx
    r.io_manager.wait_writable fd)

/-- `notify_closing(fd)` from `_generated_io_kqueue.py`. -/
def io_notify_closing {α : Type} (ctx : RunContext α) (fd : α) : Except PyExc α :=
  guardAsyncContext (do
    let r ← getRunner ctx
    r.io_manager.notify_closing fd)

/-- The state of a `trio.testing.Sequencer`: the set of claimed positions
(`_claimed`, a Python `set`, embedded as the list of its elements) and the
`_broken` flag.  The `_sequence_points` events matter only after the entry
checks and are not needed for the entry behaviour modelled here. -/
structure SequencerState where
  claimed : List Int
  broken : Bool
deriving DecidableEq, Repr

/-- What happens when `Sequencer.__call__(position)` is entered, before any
waiting and before the guarded block runs: either an exception is raised, or
the call proceeds with `position` added to `_claimed`, about to wait on
`_sequence_points[position]` unless `position == 0`. -/
inductive SeqCallEntry where
  | raised (e : PyExc)
  | proceed (s : SequencerState) (waitsOn : Option Int)
deriving DecidableEq, Repr

/-- The `RuntimeError` raised on re-use of a sequence point. -/
def reuseError (position : Int) : PyExc :=
  { ty := "RuntimeError"
    msg := "Attempted to re-use sequence point " ++ toString position
    tb := "" }

/-- Entry of `Sequencer.__call__(position)` (the body of the async context
manager up to the wait): raise on a re-used position, raise if the sequence
is broken, otherwise add `position` to `_claimed` and, when `position != 0`,
go on to wait on `_sequence_points[position]`. -/
def sequencerCallEntry (s : SequencerState) (position : Int) : SeqCallEntry :=
  if position ∈ s.claimed then
    SeqCallEntry.raised (reuseError position)
  else if s.broken then
    SeqCallEntry.raised { ty := "RuntimeError", msg := "sequence broken!", tb := "" }
  else
    SeqCallEntry.proceed { s with claimed := position :: s.claimed }
      (if position ≠ 0 then some position else none)

/-- A sample exception used to exercise the model on concrete inputs. -/
def sampleExc : PyExc := { ty := "ValueError", msg := "boom", tb := "tb\n" }

/-- A sample job whose `fn` returns `7` and whose `deliver` succeeds. -/
def sampleJobOk : Job Nat :=
  { fn := fun _ => Except.ok 7, deliver := fun _ => Except.ok () }

/-- A sample job whose `fn` returns `7` and whose `deliver` raises. -/
def sampleJobBadDeliver : Job Nat :=
  { fn := fun _ => Except.ok 7, deliver := fun _ => Except.error sampleExc }

/-- A sample job whose `fn` raises. -/
def sampleJobRaises : Job Nat :=
  { fn := fun _ => Except.error sampleExc, deliver := fun _ => Except.ok () }

/-- A worker that has been assigned the given job. -/
def sampleWorker (jb : Job Nat) : WorkerState Nat :=
  { job := some jb
    workerLock := false
    threadDaemon := true
    threadName := "Trio worker thread 0"
    threadStarted := true }

/-- A cache with workers `0` and `1` idle (worker `1` idled most recently). -/
def sampleCache : CacheState Nat :=
  { idle_workers := [0, 1], workers := fun n => workerInit Nat n, nextId := 2 }

/-- A cache with no idle workers. -/
def sampleCacheEmpty : CacheState Nat :=
  { idle_workers := [], workers := fun n => workerInit Nat n, nextId := 0 }

/-- Inserting a key always leaves it present. -/
theorem mem_dictSetItem_self (d : List WorkerId) (k : WorkerId) :
    k ∈ dictSetItem d k := by
  unfold dictSetItem
  split
  · assumption
  · simp

/-- `popitem` raises `KeyError` exactly on the empty dict. -/
theorem dictPopItem_eq_none_iff (d : List WorkerId) :
    dictPopItem d = none ↔ d = [] := by
  unfold dictPopItem
  cases h : d.getLast? with
  | none => simpa using List.getLast?_eq_none_iff.mp h
  | some k =>
      simp only [reduceCtorEq, false_iff]
      intro hd
      rw [hd] at h
      simp at h

/-- Claim C8: on construction a `WorkerThread`'s job slot is empty (`None`),
its `_worker_lock` starts in the locked (no-job-pending) state, and its
backing thread is started with the daemon flag set. -/
theorem worker_construction_state (A : Type) (n : Nat) :
    (workerInit A n).job = none ∧
    (workerInit A n).workerLock = true ∧
    (workerInit A n).threadDaemon = true ∧
    (workerInit A n).threadStarted = true :=
  ⟨rfl, rfl, rfl, rfl⟩

/-- Claim C3: `IDLE_TIMEOUT` is 10 seconds, and when the bounded wait in
`WorkerThread._work` times out the worker attempts to delete itself from the
idle registry: if the key is present the deletion succeeds and `_work`
returns (the thread terminates); if the key is absent (`KeyError`) the
worker does not terminate but loops back to wait for the job being assigned
to it. -/
theorem work_timeout_exit_or_loop :
    IDLE_TIMEOUT = 10 ∧
    ∀ (self : WorkerId) (registry : List WorkerId),
      (self ∈ registry →
        _work_timeout self registry = TimeoutStep.exitThread (registry.erase self)) ∧
      (self ∉ registry →
        _work_timeout self registry = TimeoutStep.loopForJob registry) := by
  refine ⟨rfl, fun self registry => ⟨fun h => ?_, fun h => ?_⟩⟩ <;>
    simp [_work_timeout, dictDelItem, h]

/-- Witness for `work_timeout_exit_or_loop` at concrete registries. -/
theorem work_timeout_exit_or_loop_witness :
    ((0 : WorkerId) ∈ ([0, 1] : List WorkerId) ∧
      _work_timeout 0 [0, 1] = TimeoutStep.exitThread (([0, 1] : List WorkerId).erase 0)) ∧
    ((2 : WorkerId) ∉ ([0, 1] : List WorkerId) ∧
      _work_timeout 2 [0, 1] = TimeoutStep.loopForJob [0, 1]) :=
  ⟨⟨by decide, (work_timeout_exit_or_loop.2 0 [0, 1]).1 (by decide)⟩,
   ⟨by decide, (work_timeout_exit_or_loop.2 2 [0, 1]).2 (by decide)⟩⟩

/-- Claim C7 counterexample: with registry `[0, 1]` (worker `1` most
recently inserted), inserting worker `0` — which is already present, so the
insert-if-absent (dict `__setitem__` with an existing key) leaves the order
unchanged — and then popping does not return worker `0`; it returns `1`. -/
theorem registry_insert_pop_cex :
    (dictPopItem (dictSetItem [0, 1] 0)).map Prod.fst ≠ some 0 := by decide

/-- Claim C7 as amended: for every registry state in which `w` is **not
already present**, inserting `w` and then performing
remove-most-recently-inserted returns `w` (and restores the prior state);
on an empty registry the pop reports empty. -/
theorem registry_insert_pop_lifo :
    (∀ (d : List WorkerId) (w : WorkerId), w ∉ d →
      dictPopItem (dictSetItem d w) = some (w, d)) ∧
    dictPopItem ([] : List WorkerId) = none := by
  refine ⟨fun d w h => ?_, rfl⟩
  simp [dictSetItem, h, dictPopItem, List.getLast?_concat, List.dropLast_concat]

/-- Witness for `registry_insert_pop_lifo` at a concrete registry. -/
theorem registry_insert_pop_lifo_witness :
    ((3 : WorkerId) ∉ ([5] : List WorkerId)) ∧
    dictPopItem (dictSetItem [5] 3) = some (3, [5]) :=
  ⟨by decide, registry_insert_pop_lifo.1 [5] 3 (by decide)⟩

/-- Claim C9: every context-bound kqueue I/O entry point, when called while
the global run context has no active runner, raises
`RuntimeError("must be called from async context")` — a runtime-state error
(`RuntimeError`, not a value-validation error like `ValueError` or
`TypeError`) rather than a silent no-op. -/
theorem kqueue_entry_needs_async_context (α : Type) (ctx : RunContext α)
    (h : ctx.runner = none) (ident fltr abort_func fd : α) :
    io_current_kqueue ctx = Except.error mustBeCalledFromAsyncContext ∧
    io_monitor_kevent ctx ident fltr = Except.error mustBeCalledFromAsyncContext ∧
    io_wait_kevent ctx ident fltr abort_func = Except.error mustBeCalledFromAsyncContext ∧
    io_wait_readable ctx fd = Except.error mustBeCalledFromAsyncContext ∧
    io_wait_writable ctx fd = Except.error mustBeCalledFromAsyncContext ∧
    io_notify_closing ctx fd = Except.error mustBeCalledFromAsyncContext ∧
    mustBeCalledFromAsyncContext.ty = "RuntimeError" ∧
    mustBeCalledFromAsyncContext.ty ≠ "ValueError" ∧
    mustBeCalledFromAsyncContext.ty ≠ "TypeError" := by
  obtain ⟨_ | r⟩ := ctx
  · exact ⟨rfl, rfl, rfl, rfl, rfl, rfl, rfl, by decide, by decide⟩
  · exact absurd h (by simp)

/-- Witness for `kqueue_entry_needs_async_context` with no runner
installed. -/
theorem kqueue_entry_needs_async_context_witness :
    (({ runner := none } : RunContext Nat).runner = none) ∧
    (io_current_kqueue ({ runner := none } : RunContext Nat) =
        Except.error mustBeCalledFromAsyncContext ∧
      io_monitor_kevent ({ runner := none } : RunContext Nat) 0 0 =
        Except.error mustBeCalledFromAsyncContext ∧
      io_wait_kevent ({ runner := none } : RunContext Nat) 0 0 0 =
        Except.error mustBeCalledFromAsyncContext ∧
      io_wait_readable ({ runner := none } : RunContext Nat) 0 =
        Except.error mustBeCalledFromAsyncContext ∧
      io_wait_writable ({ runner := none } : RunContext Nat) 0 =
        Except.error mustBeCalledFromAsyncContext ∧
      io_notify_closing ({ runner := none } : RunContext Nat) 0 =
        Except.error mustBeCalledFromAsyncContext ∧
      mustBeCalledFromAsyncContext.ty = "RuntimeError" ∧
      mustBeCalledFromAsyncContext.ty ≠ "ValueError" ∧
      mustBeCalledFromAsyncContext.ty ≠ "TypeError") :=
  ⟨rfl, kqueue_entry_needs_async_context Nat { runner := none } rfl 0 0 0 0⟩

/-- Claim C10: calling a `Sequencer` with a position some earlier call on
the same instance already claimed raises `RuntimeError` at entry — before
any waiting and before the guarded block runs — and any call that proceeds
claims its position, so the same position can be claimed at most once per
`Sequencer`. -/
theorem sequencer_position_claimed_once (s : SequencerState) (p : Int) :
    (p ∈ s.claimed →
      sequencerCallEntry s p = SeqCallEntry.raised (reuseError p)) ∧
    (∀ (t : SequencerState) (waits : Option Int),
      sequencerCallEntry s p = SeqCallEntry.proceed t waits →
      p ∈ t.claimed ∧
      sequencerCallEntry t p = SeqCallEntry.raised (reuseError p)) ∧
    (reuseError p).ty = "RuntimeError" := by
  refine ⟨?_, ?_, rfl⟩
  · intro h
    simp [sequencerCallEntry, h]
  · intro t waits hcall
    unfold sequencerCallEntry at hcall
    split at hcall
    · exact absurd hcall (by simp)
    · split at hcall
      · exact absurd hcall (by simp)
      · injection hcall with hs hw
        have hp : p ∈ t.claimed := by
          rw [← hs]; exact List.mem_cons_self p s.claimed
        exact ⟨hp, by simp [sequencerCallEntry, hp]⟩

/-- Witness for `sequencer_position_claimed_once`: position `2` already
claimed raises; a fresh call at `5` proceeds and then a second call at `5`
raises. -/
theorem sequencer_position_claimed_once_witness :
    ((2 : Int) ∈ ({ claimed := [2], broken := false } : SequencerState).claimed ∧
      sequencerCallEntry { claimed := [2], broken := false } 2 =
        SeqCallEntry.raised (reuseError 2)) ∧
    (sequencerCallEntry { claimed := [], broken := false } 5 =
        SeqCallEntry.proceed { claimed := [5], broken := false } (some 5) ∧
      (5 : Int) ∈ ({ claimed := [5], broken := false } : SequencerState).claimed ∧
      sequencerCallEntry { claimed := [5], broken := false } 5 =
        SeqCallEntry.raised (reuseError 5)) :=
  ⟨⟨by decide,
    (sequencer_position_claimed_once { claimed := [2], broken := false } 2).1 (by decide)⟩,
   ⟨by decide,
    (sequencer_position_claimed_once { claimed := [], broken := false } 5).2.1
      { claimed := [5], broken := false } (some 5) (by decide)⟩⟩

/-- Computation of `_handle_job` when `deliver` returns normally. -/
theorem handle_job_eq_of_deliver_ok {A : Type} (self : WorkerId)
    (w : WorkerState A) (registry : List WorkerId) (jb : Job A) (u : Unit)
    (hjob : w.job = some jb)
    (hdel : jb.deliver (capture jb.fn) = Except.ok u) :
    _handle_job self w registry = some
      { worker := { w with job := none }
        registry := dictSetItem registry self
        stderr := []
        events := [WorkerEvent.workRun (capture jb.fn),
                   WorkerEvent.registryInsert self,
                   WorkerEvent.deliverCall (capture jb.fn)
                     (dictSetItem registry self)] } := by
  unfold _handle_job
  rw [hjob]
  dsimp only
  rw [hdel]

/-- Computation of `_handle_job` when `deliver` raises. -/
theorem handle_job_eq_of_deliver_error {A : Type} (self : WorkerId)
    (w : WorkerState A) (registry : List WorkerId) (jb : Job A) (e : PyExc)
    (hjob : w.job = some jb)
    (hdel : jb.deliver (capture jb.fn) = Except.error e) :
    _handle_job self w registry = some
      { worker := { w with job := none }
        registry := dictSetItem registry self
        stderr := ["Exception while delivering result of thread",
                   formatException e]
        events := [WorkerEvent.workRun (capture jb.fn),
                   WorkerEvent.registryInsert self,
                   WorkerEvent.deliverCall (capture jb.fn)
                     (dictSetItem registry self),
                   WorkerEvent.deliverRaised e,
                   WorkerEvent.stderrWrite
                     "Exception while delivering result of thread",
                   WorkerEvent.stderrWrite (formatException e)] } := by
  unfold _handle_job
  rw [hjob]
  dsimp only
  rw [hdel]

/-- Claim C2: for every job a worker executes, `_handle_job` re-inserts the
worker into the idle registry strictly before invoking `deliver` with the
captured result, and every `deliver` invocation happens with the worker
present in the idle registry. -/
theorem handle_job_registers_before_deliver {A : Type} (self : WorkerId)
    (w : WorkerState A) (registry : List WorkerId) (jb : Job A)
    (hjob : w.job = some jb) :
    ∃ res : HandleResult A, _handle_job self w registry = some res ∧
      (∃ i j : Nat, i < j ∧
        res.events[i]? = some (WorkerEvent.registryInsert self) ∧
        res.events[j]? =
          some (WorkerEvent.deliverCall (capture jb.fn) (dictSetItem registry self))) ∧
      (∀ (r : Outcome A) (reg : List WorkerId),
        WorkerEvent.deliverCall r reg ∈ res.events → self ∈ reg) ∧
      res.registry = dictSetItem registry self := by
  cases hdel : jb.deliver (capture jb.fn) with
  | ok u =>
      refine ⟨_, handle_job_eq_of_deliver_ok self w registry jb u hjob hdel,
        ⟨1, 2, by norm_num, rfl, rfl⟩, ?_, rfl⟩
      intro r reg hmem
      simp only [List.mem_cons, List.not_mem_nil, or_false] at hmem
      rcases hmem with h | h | h
      · exact absurd h (by simp)
      · exact absurd h (by simp)
      · obtain ⟨-, hreg⟩ := WorkerEvent.deliverCall.inj h
        rw [hreg]
        exact mem_dictSetItem_self registry self
  | error e =>
      refine ⟨_, handle_job_eq_of_deliver_error self w registry jb e hjob hdel,
        ⟨1, 2, by norm_num, rfl, rfl⟩, ?_, rfl⟩
      intro r reg hmem
      simp only [List.mem_cons, List.not_mem_nil, or_false] at hmem
      rcases hmem with h | h | h | h | h | h
      · exact absurd h (by simp)
      · exact absurd h (by simp)
      · obtain ⟨-, hreg⟩ := WorkerEvent.deliverCall.inj h
        rw [hreg]
        exact mem_dictSetItem_self registry self
      · exact absurd h (by simp)
      · exact absurd h (by simp)
      · exact absurd h (by simp)

/-- Witness for `handle_job_registers_before_deliver` on a concrete job. -/
theorem handle_job_registers_before_deliver_witness :
    (sampleWorker sampleJobOk).job = some sampleJobOk ∧
    (∃ res : HandleResult Nat, _handle_job 0 (sampleWorker sampleJobOk) [] = some res ∧
      (∃ i j : Nat, i < j ∧
        res.events[i]? = some (WorkerEvent.registryInsert 0) ∧
        res.events[j]? =
          some (WorkerEvent.deliverCall (capture sampleJobOk.fn) (dictSetItem [] 0))) ∧
      (∀ (r : Outcome Nat) (reg : List WorkerId),
        WorkerEvent.deliverCall r reg ∈ res.events → 0 ∈ reg) ∧
      res.registry = dictSetItem [] 0) :=
  ⟨rfl, handle_job_registers_before_deliver 0 (sampleWorker sampleJobOk) [] sampleJobOk rfl⟩

/-- Claim C5: if `deliver` raises, `_handle_job` catches the exception and
returns normally (no propagation), reports the description and the
traceback to stderr, leaves the worker in the idle registry, and the worker
can still accept and execute any subsequent job. -/
theorem handle_job_deliver_failure_contained {A : Type} (self : WorkerId)
    (w : WorkerState A) (registry : List WorkerId) (jb : Job A) (e : PyExc)
    (hjob : w.job = some jb)
    (herr : jb.deliver (capture jb.fn) = Except.error e) :
    ∃ res : HandleResult A, _handle_job self w registry = some res ∧
      res.stderr = ["Exception while delivering result of thread",
                    formatException e] ∧
      self ∈ res.registry ∧
      ∀ jb2 : Job A, ∃ res2 : HandleResult A,
        _handle_job self { res.worker with job := some jb2 } res.registry =
          some res2 ∧
        WorkerEvent.workRun (capture jb2.fn) ∈ res2.events := by
  refine ⟨_, handle_job_eq_of_deliver_error self w registry jb e hjob herr,
    rfl, mem_dictSetItem_self registry self, ?_⟩
  intro jb2
  cases hdel2 : jb2.deliver (capture jb2.fn) with
  | ok u =>
      exact ⟨_, handle_job_eq_of_deliver_ok self _ _ jb2 u rfl hdel2, by simp⟩
  | error e2 =>
      exact ⟨_, handle_job_eq_of_deliver_error self _ _ jb2 e2 rfl hdel2, by simp⟩

/-- Witness for `handle_job_deliver_failure_contained` on a concrete job
whose `deliver` raises `sampleExc`. -/
theorem handle_job_deliver_failure_contained_witness :
    (sampleWorker sampleJobBadDeliver).job = some sampleJobBadDeliver ∧
    sampleJobBadDeliver.deliver (capture sampleJobBadDeliver.fn) =
      Except.error sampleExc ∧
    (∃ res : HandleResult Nat,
      _handle_job 3 (sampleWorker sampleJobBadDeliver) [] = some res ∧
      res.stderr = ["Exception while delivering result of thread",
                    formatException sampleExc] ∧
      3 ∈ res.registry ∧
      ∀ jb2 : Job Nat, ∃ res2 : HandleResult Nat,
        _handle_job 3 { res.worker with job := some jb2 } res.registry =
          some res2 ∧
        WorkerEvent.workRun (capture jb2.fn) ∈ res2.events) :=
  ⟨rfl, rfl,
   handle_job_deliver_failure_contained 3 (sampleWorker sampleJobBadDeliver) []
     sampleJobBadDeliver sampleExc rfl rfl⟩

/-- Claim C6: for every executed job, `deliver` is invoked with the tagged
`Outcome` of `work` — the return value when `work` returns normally, the
raised exception captured as data when `work` raises — and an exception
raised by `work` neither escapes `_handle_job` nor produces any diagnostic
output (it is not treated as a pool error). -/
theorem handle_job_delivers_tagged_outcome {A : Type} (self : WorkerId)
    (w : WorkerState A) (registry : List WorkerId) (jb : Job A)
    (hjob : w.job = some jb) :
    ∃ res : HandleResult A, _handle_job self w registry = some res ∧
      (∃ reg : List WorkerId,
        WorkerEvent.deliverCall (capture jb.fn) reg ∈ res.events) ∧
      (∀ a : A, jb.fn () = Except.ok a → capture jb.fn = Outcome.value a) ∧
      (∀ e : PyExc, jb.fn () = Except.error e → capture jb.fn = Outcome.error e) ∧
      (∀ e : PyExc, jb.fn () = Except.error e →
        jb.deliver (capture jb.fn) = Except.ok () → res.stderr = []) := by
  have hval : ∀ a : A, jb.fn () = Except.ok a → capture jb.fn = Outcome.value a := by
    intro a h
    simp [capture, h]
  have herr : ∀ e : PyExc, jb.fn () = Except.error e →
      capture jb.fn = Outcome.error e := by
    intro e h
    simp [capture, h]
  cases hdel : jb.deliver (capture jb.fn) with
  | ok u =>
      refine ⟨_, handle_job_eq_of_deliver_ok self w registry jb u hjob hdel,
        ⟨dictSetItem registry self, by simp⟩, hval, herr, fun e he hok => rfl⟩
  | error e2 =>
      refine ⟨_, handle_job_eq_of_deliver_error self w registry jb e2 hjob hdel,
        ⟨dictSetItem registry self, by simp⟩, hval, herr, fun e he hok => ?_⟩
      exact absurd hok (by simp)

/-- Witness for `handle_job_delivers_tagged_outcome` on a concrete job
whose `work` raises. -/
theorem handle_job_delivers_tagged_outcome_witness :
    (sampleWorker sampleJobRaises).job = some sampleJobRaises ∧
    (∃ res : HandleResult Nat,
      _handle_job 4 (sampleWorker sampleJobRaises) [] = some res ∧
      (∃ reg : List WorkerId,
        WorkerEvent.deliverCall (capture sampleJobRaises.fn) reg ∈ res.events) ∧
      (∀ a : Nat, sampleJobRaises.fn () = Except.ok a →
        capture sampleJobRaises.fn = Outcome.value a) ∧
      (∀ e : PyExc, sampleJobRaises.fn () = Except.error e →
        capture sampleJobRaises.fn = Outcome.error e) ∧
      (∀ e : PyExc, sampleJobRaises.fn () = Except.error e →
        sampleJobRaises.deliver (capture sampleJobRaises.fn) = Except.ok () →
        res.stderr = [])) :=
  ⟨rfl, handle_job_delivers_tagged_outcome 4 (sampleWorker sampleJobRaises) []
    sampleJobRaises rfl⟩

/-- Claim C4: `start_thread_soon` first attempts a LIFO pop of the idle
registry; if a worker is returned it is the one used (and no new worker is
constructed); otherwise a brand-new worker is constructed and is not placed
in the registry; in either case the chosen worker's job slot is populated
with `(fn, deliver)` before its lock is released, and it ends with the job
assigned and the lock released. -/
theorem start_thread_soon_pop_or_spawn {A : Type} (c : CacheState A)
    (fn : Unit → Except PyExc A) (deliver : Outcome A → Except PyExc Unit) :
    (start_thread_soon c fn deliver).events.head? =
      some (CacheEvent.popItem ((dictPopItem c.idle_workers).map Prod.fst)) ∧
    (∀ (w : WorkerId) (d : List WorkerId),
      dictPopItem c.idle_workers = some (w, d) →
      (start_thread_soon c fn deliver).worker = w ∧
      (start_thread_soon c fn deliver).cache.idle_workers = d ∧
      ∀ x : WorkerId,
        CacheEvent.spawnWorker x ∉ (start_thread_soon c fn deliver).events) ∧
    (dictPopItem c.idle_workers = none →
      (start_thread_soon c fn deliver).worker = c.nextId ∧
      CacheEvent.spawnWorker c.nextId ∈ (start_thread_soon c fn deliver).events ∧
      (start_thread_soon c fn deliver).worker ∉
        (start_thread_soon c fn deliver).cache.idle_workers) ∧
    ((start_thread_soon c fn deliver).cache.workers
        (start_thread_soon c fn deliver).worker).job = some ⟨fn, deliver⟩ ∧
    ((start_thread_soon c fn deliver).cache.workers
        (start_thread_soon c fn deliver).worker).workerLock = false ∧
    (∃ i j : Nat, i < j ∧
      (start_thread_soon c fn deliver).events[i]? =
        some (CacheEvent.jobWrite (start_thread_soon c fn deliver).worker) ∧
      (start_thread_soon c fn deliver).events[j]? =
        some (CacheEvent.lockRelease (start_thread_soon c fn deliver).worker)) := by
  cases hpop : dictPopItem c.idle_workers with
  | some wd =>
      obtain ⟨w, d⟩ := wd
      refine ⟨?_, ?_, ?_, ?_, ?_, ?_⟩
      · simp [start_thread_soon, hpop]
      · intro w2 d2 h2
        injection h2 with h3
        injection h3 with hw hd
        subst hw
        subst hd
        refine ⟨by simp [start_thread_soon, hpop], by simp [start_thread_soon, hpop], ?_⟩
        intro x
        simp [start_thread_soon, hpop]
      · intro h2
        exact absurd h2 (by simp)
      · simp [start_thread_soon, hpop, setWorker]
      · simp [start_thread_soon, hpop, setWorker]
      · refine ⟨1, 2, by norm_num, ?_, ?_⟩ <;> simp [start_thread_soon, hpop]
  | none =>
      have hempty : c.idle_workers = [] := (dictPopItem_eq_none_iff _).mp hpop
      refine ⟨?_, ?_, ?_, ?_, ?_, ?_⟩
      · simp [start_thread_soon, hpop]
      · intro w2 d2 h2
        exact absurd h2 (by simp)
      · intro h2
        refine ⟨by simp [start_thread_soon, hpop], by simp [start_thread_soon, hpop], ?_⟩
        simp [start_thread_soon, hpop, dictPopItem, hempty]
      · simp [start_thread_soon, hpop, setWorker]
      · simp [start_thread_soon, hpop, setWorker]
      · refine ⟨2, 3, by norm_num, ?_, ?_⟩ <;> simp [start_thread_soon, hpop]

/-- Witness for `start_thread_soon_pop_or_spawn` at a cache with idle
workers `[0, 1]` (pop case) and at an empty cache (spawn case). -/
theorem start_thread_soon_pop_or_spawn_witness :
    (dictPopItem sampleCache.idle_workers = some (1, [0]) ∧
      (start_thread_soon sampleCache sampleJobOk.fn sampleJobOk.deliver).worker = 1 ∧
      (start_thread_soon sampleCache sampleJobOk.fn
          sampleJobOk.deliver).cache.idle_workers = [0] ∧
      ∀ x : WorkerId, CacheEvent.spawnWorker x ∉
        (start_thread_soon sampleCache sampleJobOk.fn sampleJobOk.deliver).events) ∧
    (dictPopItem sampleCacheEmpty.idle_workers = none ∧
      (start_thread_soon sampleCacheEmpty sampleJobOk.fn
          sampleJobOk.deliver).worker = sampleCacheEmpty.nextId ∧
      CacheEvent.spawnWorker sampleCacheEmpty.nextId ∈
        (start_thread_soon sampleCacheEmpty sampleJobOk.fn sampleJobOk.deliver).events ∧
      (start_thread_soon sampleCacheEmpty sampleJobOk.fn sampleJobOk.deliver).worker ∉
        (start_thread_soon sampleCacheEmpty sampleJobOk.fn
          sampleJobOk.deliver).cache.idle_workers) :=
  ⟨⟨by decide,
    (start_thread_soon_pop_or_spawn sampleCache sampleJobOk.fn
      sampleJobOk.deliver).2.1 1 [0] (by decide)⟩,
   ⟨by decide,
    (start_thread_soon_pop_or_spawn sampleCacheEmpty sampleJobOk.fn
      sampleJobOk.deliver).2.2.1 (by decide)⟩⟩

end Trio
